import Mathlib

/-!
Verification development for the oreo.io-v3 python service.

Shallow embedding of the core data-plane operations of the service:
the Delta storage adapter's merge and append-dedup relations
(`python-service/delta_adapter.py`), the merge executor
(`python-service/merge_executor.py`), the validation state machine
(`python-service/validation_models.py`), the change request service and
state machine (`python-service/change_request_service.py`,
`change_request_models.py`), the live-edit session service
(`python-service/live_edit_service.py`), and the business rule evaluator
(`python-service/business_rules_service.py`).

Tables are embedded as lists of positional rows over SQL values
(`Option Int`, `none` = SQL NULL); the DuckDB SQL the adapter executes is
translated row-relationally.  Python dictionaries keyed by column name are
embedded as functions `String → Option α`, and datetimes as natural-number
ticks.  Fallible operations return `Except`.
-/

namespace Oreo

/-- A SQL value as produced by `delta_scan`: either NULL or a concrete value.
Concrete values are idealised as integers. -/
abbrev Value := Option Int

/-- A table row: positional list of column values (the embedding fixes a
common column universe for target and source, as `_discover_columns` /
`DESCRIBE` produce for same-schema tables). -/
abbrev Row := List Value

/-- Column access `r."c"`; columns are positional indices. -/
def getCol (r : Row) (i : Nat) : Value := r.getD i none

/-- DuckDB `tgt."k" = src."k"` inside WHERE: NULL compares unknown, hence
the row is not selected; so equality holds only for two non-NULL equal
values. -/
def sqlEq (a b : Value) : Bool :=
  match a, b with
  | some x, some y => x = y
  | _, _ => false

/-- The key condition of `merge_staging_to_main` / `execute_merge`:
`" AND ".join(tgt."k" = src."k" for k in keys)`. -/
def keysMatch (keys : List Nat) (t s : Row) : Bool :=
  keys.all fun k => sqlEq (getCol t k) (getCol s k)

/-- The upsert relation both `DeltaStorageAdapter.merge_staging_to_main`
and `MergeExecutor.execute_merge` compute with DuckDB:

`SELECT src.* FROM src UNION ALL
 SELECT tgt.* FROM tgt WHERE NOT EXISTS (SELECT 1 FROM src WHERE key_cond)`. -/
def mergeUpsert (keys : List Nat) (target source : List Row) : List Row :=
  source ++ target.filter fun t => !(source.any fun s => keysMatch keys t s)

/-- `DeltaStorageAdapter.merge_staging_to_main(project, dataset, cr, keys)`:
raises `ValueError` when `keys` is empty, otherwise rebuilds main as the
upsert of staging over main and overwrites (`delta_adapter.py:345-396`).
The filesystem existence check for the staging path is outside the row
relation. -/
def mergeStagingToMain (keys : List Nat) (target source : List Row) :
    Except String (List Row) :=
  if keys.isEmpty then .error "keys are required for merge"
  else .ok (mergeUpsert keys target source)

end Oreo

namespace Oreo

/-! ## Validation state machine (`validation_models.py`) -/

/-- `ValidationState` enum. -/
inductive ValidationState where
  | NOT_STARTED
  | IN_PROGRESS
  | PARTIAL_PASS
  | PASSED
  | FAILED
deriving DecidableEq, Repr

/-- `ValidationCounts`: counts of validation results by severity. -/
structure ValidationCounts where
  info : Nat := 0
  warning : Nat := 0
  error : Nat := 0
  fatal : Nat := 0
deriving DecidableEq, Repr

/-- `ValidationCounts.has_blocking_errors`. -/
def ValidationCounts.hasBlockingErrors (c : ValidationCounts) : Bool :=
  c.error > 0 || c.fatal > 0

/-- `ValidationCounts.has_warnings`. -/
def ValidationCounts.hasWarnings (c : ValidationCounts) : Bool :=
  c.warning > 0

/-- `ValidationStateMachine.transition(current_state, counts, override_approved)`
(`validation_models.py:171-207`). -/
def ValidationStateMachine.transition (currentState : ValidationState)
    (counts : ValidationCounts) (overrideApproved : Bool := false) :
    ValidationState :=
  if currentState = .NOT_STARTED then .IN_PROGRESS
  else if currentState = .IN_PROGRESS then
    if counts.hasBlockingErrors then .FAILED
    else if counts.hasWarnings then .PARTIAL_PASS
    else .PASSED
  else if currentState = .PARTIAL_PASS then
    if overrideApproved then .PASSED else .PARTIAL_PASS
  else currentState

end Oreo

namespace Oreo

/-! ## Theorems for claim C1 -/

/-- C1: Merge upsert law.  For every target table, source (staging) table and
non-empty key list, `merge_staging_to_main` succeeds and produces exactly the
source rows together with those target rows whose key values match no source
row; every source row appears in the result, unmatched target rows are
preserved, and the result size is `|S| + |T minus key-matched rows|`. -/
theorem merge_upsert_law (keys : List Nat) (target source : List Row)
    (hk : keys ≠ []) :
    ∃ r, mergeStagingToMain keys target source = .ok r ∧
      (∀ x, x ∈ r ↔ x ∈ source ∨
        (x ∈ target ∧ ¬ ∃ s ∈ source, keysMatch keys x s = true)) ∧
      (∀ s ∈ source, s ∈ r) ∧
      (∀ t ∈ target, (¬ ∃ s ∈ source, keysMatch keys t s = true) → t ∈ r) ∧
      r.length = source.length +
        (target.filter fun t => !(source.any fun s => keysMatch keys t s)).length := by
  refine ⟨mergeUpsert keys target source, ?_, ?_, ?_, ?_, ?_⟩
  · simp [mergeStagingToMain, List.isEmpty_iff, hk]
  · intro x
    simp only [mergeUpsert, List.mem_append, List.mem_filter, Bool.not_eq_true',
      List.any_eq_false]
    constructor
    · rintro (h | ⟨ht, hn⟩)
      · exact .inl h
      · exact .inr ⟨ht, fun ⟨s, hs, hm⟩ => by simpa [hm] using hn s hs⟩
    · rintro (h | ⟨ht, hn⟩)
      · exact .inl h
      · refine .inr ⟨ht, fun s hs => ?_⟩
        by_contra hc
        exact hn ⟨s, hs, by simpa using hc⟩
  · intro s hs
    exact List.mem_append_left _ hs
  · intro t ht hn
    refine List.mem_append_right _ ?_
    refine List.mem_filter.mpr ⟨ht, ?_⟩
    simp only [Bool.not_eq_true', List.any_eq_false]
    intro s hs
    by_contra hc
    exact hn ⟨s, hs, by simpa using hc⟩
  · simp [mergeUpsert]

/-- C1 witness: the upsert law applied at `keys = [0]`,
`target = [(1,10),(2,20)]`, `source = [(2,99),(3,30)]`. -/
theorem merge_upsert_law_witness :
    ([0] : List Nat) ≠ [] ∧
    ∃ r, mergeStagingToMain [0]
        [[some 1, some 10], [some 2, some 20]]
        [[some 2, some 99], [some 3, some 30]] = .ok r ∧
      (∀ x, x ∈ r ↔ x ∈ [[some 2, some 99], [some 3, some 30]] ∨
        (x ∈ [[some 1, some 10], [some 2, some 20]] ∧
          ¬ ∃ s ∈ [[some 2, some 99], [some 3, some 30]],
            keysMatch [0] x s = true)) ∧
      (∀ s ∈ [[some 2, some 99], [some 3, some 30]], s ∈ r) ∧
      (∀ t ∈ [[some 1, some 10], [some 2, some 20]],
        (¬ ∃ s ∈ [[some 2, some 99], [some 3, some 30]],
          keysMatch [0] t s = true) → t ∈ r) ∧
      r.length = 2 +
        (([[some 1, some 10], [some 2, some 20]] : List Row).filter fun t =>
          !(([[some 2, some 99], [some 3, some 30]] : List Row).any fun s =>
            keysMatch [0] t s)).length :=
  ⟨by decide,
   merge_upsert_law [0] [[some 1, some 10], [some 2, some 20]]
     [[some 2, some 99], [some 3, some 30]] (by decide)⟩

/-! ## Theorems for claim C4 -/

/-- C4: the validation state machine transition function: `NOT_STARTED` maps
to `IN_PROGRESS`; `IN_PROGRESS` maps to `FAILED` when `fatal > 0` or
`error > 0`, else to `PARTIAL_PASS` when `warning > 0`, else to `PASSED`;
`PARTIAL_PASS` maps to `PASSED` exactly when the override is approved,
otherwise stays `PARTIAL_PASS`. -/
theorem validation_transition_law (c : ValidationCounts) (o : Bool) :
    ValidationStateMachine.transition .NOT_STARTED c o = .IN_PROGRESS ∧
    ValidationStateMachine.transition .IN_PROGRESS c o =
      (if c.fatal > 0 ∨ c.error > 0 then .FAILED
       else if c.warning > 0 then .PARTIAL_PASS
       else .PASSED) ∧
    (ValidationStateMachine.transition .PARTIAL_PASS c o = .PASSED ↔ o = true) := by
  refine ⟨rfl, ?_, ?_⟩
  · simp only [ValidationStateMachine.transition, ValidationCounts.hasBlockingErrors,
      ValidationCounts.hasWarnings, reduceIte]
    by_cases hf : c.fatal > 0
    · simp [hf, Bool.or_eq_true, decide_eq_true_eq, Or.comm]
    · by_cases he : c.error > 0
      · simp [hf, he]
      · by_cases hw : c.warning > 0 <;> simp [hf, he, hw]
  · cases o <;> simp [ValidationStateMachine.transition]

end Oreo

namespace Oreo

/-! ## Append-dedup (`DeltaStorageAdapter.append_to_main`,
`delta_adapter.py:196-295`) -/

/-- Result record of `append_to_main`: the table content written plus the
`{inserted, duplicates}` counts it returns. -/
structure AppendResult where
  table : List Row
  inserted : Nat
  duplicates : Nat
deriving DecidableEq, Repr

/-- `DeltaStorageAdapter.append_to_main(project, dataset, rows)`.

When no `_delta_log` exists the rows are written as a new table and the call
reports `inserted = len(rows), duplicates = 0`.  Otherwise DuckDB counts the
source rows for which a target row agrees on ALL columns under
`IS NOT DISTINCT FROM` (null-equal; on the fixed column universe this is row
equality), and writes `tgt UNION ALL (src WHERE NOT EXISTS equal tgt row)`,
reporting `inserted = len(rows) - duplicates`. -/
def appendToMain (existing : Option (List Row)) (rows : List Row) :
    AppendResult :=
  match existing with
  | none => { table := rows, inserted := rows.length, duplicates := 0 }
  | some tgt =>
    let dup := rows.countP fun s => decide (s ∈ tgt)
    { table := tgt ++ rows.filter fun s => decide (s ∉ tgt)
      inserted := rows.length - dup
      duplicates := dup }

end Oreo

namespace Oreo

/-! ## Theorems for claim C3 -/

/-- C3: Append-dedup idempotence.  For any table state (absent or with rows
`tgt`) and any row batch `rows`, running `append_to_main` twice yields the
same table content as running it once, and the second call reports
`inserted = 0` and `duplicates = |rows|`. -/
theorem append_dedup_idempotent (existing : Option (List Row)) (rows : List Row) :
    appendToMain (some (appendToMain existing rows).table) rows =
      { table := (appendToMain existing rows).table
        inserted := 0
        duplicates := rows.length } := by
  have hmem : ∀ s ∈ rows, s ∈ (appendToMain existing rows).table := by
    intro s hs
    cases existing with
    | none => simpa [appendToMain] using hs
    | some tgt =>
      simp only [appendToMain, List.mem_append, List.mem_filter]
      by_cases h : s ∈ tgt
      · exact .inl h
      · exact .inr ⟨hs, by simpa using h⟩
  set T := (appendToMain existing rows).table with hT
  have hdup : (rows.countP fun s => decide (s ∈ T)) = rows.length :=
    List.countP_eq_length.mpr fun s hs => by simpa using hmem s hs
  have hfil : (rows.filter fun s => decide (s ∉ T)) = [] :=
    List.filter_eq_nil_iff.mpr fun s hs => by simpa using hmem s hs
  show appendToMain (some T) rows = { table := T, inserted := 0, duplicates := rows.length }
  simp only [appendToMain, hdup, hfil, List.append_nil, Nat.sub_self]

end Oreo

namespace Oreo

/-! ## Change requests (`change_request_models.py`, `change_request_service.py`) -/

/-- `ChangeRequestStatus` enum. -/
inductive CRStatus where
  | DRAFT
  | PENDING_REVIEW
  | REJECTED
  | APPROVED
  | MERGED
  | CLOSED
deriving DecidableEq, Repr

/-- `ChangeRequestEventType` enum. -/
inductive CREventType where
  | CREATED
  | EDITED
  | SUBMITTED
  | APPROVED
  | REJECTED
  | MERGED
  | RESTORED
  | CLEANUP
deriving DecidableEq, Repr

/-- `ChangeRequestEvent` (id generation and actor plumbing elided to the
fields the claims mention). -/
structure CREvent where
  crId : String
  eventType : CREventType
  message : String
deriving DecidableEq, Repr

/-- The `counts` dict of a `ValidationSummary` (`{info, warning, error,
fatal}`); `counts.get(k, 0)` becomes field access. -/
structure SummaryCounts where
  info : Nat := 0
  warning : Nat := 0
  error : Nat := 0
  fatal : Nat := 0
deriving DecidableEq, Repr

/-- `ValidationSummary` embedded in a CR. -/
structure CRValidationSummary where
  state : String
  counts : SummaryCounts
deriving DecidableEq, Repr

/-- `ChangeRequest` entity, restricted to the fields the CR lifecycle code
reads or writes (timestamps are tick counters). -/
structure ChangeRequest where
  id : String
  title : String
  status : CRStatus := .DRAFT
  createdAt : Nat := 0
  updatedAt : Nat := 0
  approvedAt : Option Nat := none
  mergedAt : Option Nat := none
  stagingPath : String
  deltaVersionBefore : Option Int := none
  deltaVersionAfter : Option Int := none
  validationSummary : Option CRValidationSummary := none
  warningsCount : Nat := 0
  errorsCount : Nat := 0
  fatalErrors : Nat := 0
deriving DecidableEq, Repr

/-- `ChangeRequestStateMachine.can_transition(from_status, to_status)`. -/
def canTransition (fromStatus toStatus : CRStatus) : Bool :=
  match fromStatus with
  | .DRAFT => toStatus = .PENDING_REVIEW
  | .PENDING_REVIEW => toStatus = .APPROVED || toStatus = .REJECTED
  | .REJECTED => toStatus = .PENDING_REVIEW
  | .APPROVED => toStatus = .MERGED || toStatus = .PENDING_REVIEW
  | .MERGED => toStatus = .CLOSED
  | .CLOSED => false

/-- `ChangeRequestStateMachine.validate_submission(cr)`
(`change_request_models.py:164-183`); `not cr.title` is Python truthiness,
i.e. the empty string fails. -/
def validateSubmission (cr : ChangeRequest) : Bool × Option String :=
  if cr.status ≠ .DRAFT then (false, some "CR must be in DRAFT status")
  else if cr.title = "" then (false, some "CR must have a title")
  else if cr.fatalErrors > 0 then (false, some "CR has fatal validation errors")
  else if cr.errorsCount > 0 then (false, some "CR has blocking validation errors")
  else (true, none)

/-- `ChangeRequestStateMachine.validate_merge(cr)`. -/
def validateMerge (cr : ChangeRequest) : Bool × Option String :=
  if cr.status ≠ .APPROVED then (false, some "CR must be APPROVED before merge")
  else if cr.stagingPath = "" then (false, some "CR staging path not set")
  else (true, none)

/-- The copy of `cr` after `submit_for_review` installs a provided
validation summary (`change_request_service.py:194-199`): the summary and
the three severity counters are overwritten before the gate runs. -/
def applySummary (cr : ChangeRequest) (vs : Option CRValidationSummary) :
    ChangeRequest :=
  match vs with
  | some v =>
    { cr with
      validationSummary := some v
      warningsCount := v.counts.warning
      errorsCount := v.counts.error
      fatalErrors := v.counts.fatal }
  | none => cr

/-- Outcome of a service call: the `(success, error)` pair, the CR record as
left in the store, and the event log as left in the store. -/
structure ServiceOutcome where
  success : Bool
  error : Option String
  cr : ChangeRequest
  events : List CREvent
deriving DecidableEq, Repr

/-- `ChangeRequestService.submit_for_review(cr_id, submitter, summary)`
(`change_request_service.py:177-232`).  The CR object is mutated in place,
so a failed gate still leaves the installed summary on the stored CR; the
status flip, `updated_at` refresh and the SUBMITTED event happen only on
success. -/
def submitForReview (cr : ChangeRequest) (vs : Option CRValidationSummary)
    (events : List CREvent) (now : Nat) : ServiceOutcome :=
  let cr1 := applySummary cr vs
  let gate := validateSubmission cr1
  if !gate.1 then
    { success := false, error := gate.2, cr := cr1, events := events }
  else if !canTransition cr1.status .PENDING_REVIEW then
    { success := false
      error := some "Cannot transition to PENDING_REVIEW"
      cr := cr1, events := events }
  else
    { success := true
      error := none
      cr := { cr1 with status := .PENDING_REVIEW, updatedAt := now }
      events := events ++
        [{ crId := cr1.id, eventType := .SUBMITTED, message := "Submitted for review" }] }

/-- `ChangeRequestService.merge_change_request(cr_id, request, adapter)`
(`change_request_service.py:322-412`).  The adapter call
`merge_staging_to_main` is the only fallible step before any CR mutation;
its outcome is passed in as `adapterOutcome` (`.error e` = a raised
exception, `.ok b` = a returned dict with `ok = b`).  On success the code
installs the placeholder versions `version_before = 0`,
`version_after = 1`, flips the CR to MERGED and appends a MERGED event; on
any failure it returns with the CR and the event log untouched. -/
def mergeChangeRequest (cr : ChangeRequest) (force : Bool)
    (adapterOutcome : Except String Bool) (events : List CREvent) (now : Nat) :
    ServiceOutcome :=
  let gate := validateMerge cr
  if !gate.1 && !force then
    { success := false, error := gate.2, cr := cr, events := events }
  else
    match adapterOutcome with
    | .error e =>
      { success := false, error := some ("Merge failed: " ++ e)
        cr := cr, events := events }
    | .ok okFlag =>
      if !okFlag then
        { success := false, error := some "Merge operation failed"
          cr := cr, events := events }
      else
        { success := true
          error := none
          cr := { cr with
                  deltaVersionBefore := some 0
                  deltaVersionAfter := some 1
                  mergedAt := some now
                  status := .MERGED
                  updatedAt := now }
          events := events ++
            [{ crId := cr.id, eventType := .MERGED, message := "Merged to version 1" }] }

end Oreo

namespace Oreo

/-! ## Merge executor pipeline (`merge_executor.py:388-501`) -/

/-- `full_merge`'s unified result, plus whether the staging table still
exists afterwards (cleanup step 4 deletes it). -/
structure FullMergeOutcome where
  ok : Bool
  error : Option String
  conflicts : List Row
  cleanup : Bool
  stagingExists : Bool
deriving DecidableEq, Repr

/-- `MergeExecutor.full_merge(...)` with `cleanup_after = True` (as the
`/delta/merge-cr` endpoint calls it).  Conflict detection's outcome and the
merge execution's outcome (`.error e` = `execute_merge` raised) are passed
in; the diff and audit-file writes do not affect the claimed state.  On a
`MergeConflict` or an execution failure the function returns before the
cleanup step, so the staging table is left in place. -/
def fullMerge (skipConflictCheck : Bool) (detectResult : Bool × List Row)
    (execOutcome : Except String Nat) (stagingExists : Bool) :
    FullMergeOutcome :=
  if !skipConflictCheck && detectResult.1 then
    { ok := false, error := some "merge_conflict", conflicts := detectResult.2
      cleanup := false, stagingExists := stagingExists }
  else
    match execOutcome with
    | .error e =>
      { ok := false, error := some e, conflicts := []
        cleanup := false, stagingExists := stagingExists }
    | .ok _ =>
      { ok := true, error := none, conflicts := []
        cleanup := stagingExists, stagingExists := false }

/-- The main-table effect of `MergeExecutor.execute_merge(main, staging,
keys, ...)` (`merge_executor.py:238-345`): the full upsert relation is
computed in DuckDB and then committed to `main` by ONE
`write_deltalake(..., mode="overwrite")`, atomic at the Delta log level —
either the commit lands and `main` becomes the complete merged table as a
new version, or the call raises and the previous version remains head.
`commitOk` says whether the atomic commit succeeds; the result pairs the
raised/returned outcome with the `main` content afterwards. -/
def executeMerge (keys : List Nat) (mainTbl staging : List Row)
    (commitOk : Bool) : Except String Nat × List Row :=
  if commitOk then
    (.ok (mergeUpsert keys mainTbl staging).length, mergeUpsert keys mainTbl staging)
  else
    (.error "merge failed", mainTbl)

end Oreo

namespace Oreo

/-! ## Theorems for claims C5 and C9 -/

/-- Failed-gate lemma: once the effective CR carries blocking counters or an
empty title, `validate_submission` answers `False` (shared by C5/C9). -/
theorem validateSubmission_blocked (cr : ChangeRequest)
    (h : cr.errorsCount > 0 ∨ cr.fatalErrors > 0 ∨ cr.title = "") :
    (validateSubmission cr).1 = false := by
  unfold validateSubmission
  by_cases hs : cr.status = CRStatus.DRAFT
  · by_cases htz : cr.title = ""
    · simp [hs, htz]
    · rcases h with he | hf | ht
      · by_cases hfz : 0 < cr.fatalErrors
        · simp [hs, htz, hfz]
        · simp [hs, htz, hfz, he]
      · simp [hs, htz, hf]
      · exact absurd ht htz
  · simp [hs]

/-- C5: Submission gate.  For every draft CR whose effective validation
counters (after an optionally supplied summary is installed) report
`error > 0` or `fatal > 0`, or whose title is empty, `submit_for_review`
fails, appends no event, and leaves the CR's status unchanged — it remains
DRAFT and never reaches PENDING_REVIEW. -/
theorem submit_blocked_on_errors (cr : ChangeRequest)
    (vs : Option CRValidationSummary) (events : List CREvent) (now : Nat)
    (hd : cr.status = .DRAFT)
    (hblock : (applySummary cr vs).errorsCount > 0 ∨
      (applySummary cr vs).fatalErrors > 0 ∨ cr.title = "") :
    (submitForReview cr vs events now).success = false ∧
    (submitForReview cr vs events now).cr.status = .DRAFT ∧
    (submitForReview cr vs events now).events = events := by
  have htitle : (applySummary cr vs).title = cr.title := by
    cases vs <;> rfl
  have hst : (applySummary cr vs).status = .DRAFT := by
    cases vs <;> simpa using hd
  have hgate : (validateSubmission (applySummary cr vs)).1 = false :=
    validateSubmission_blocked _ (by rwa [htitle])
  unfold submitForReview
  simp [hgate, hst]

/-- Concrete draft CR used by the C5 witness. -/
def crBlockedExample : ChangeRequest :=
  { id := "cr_1", title := "x", status := .DRAFT, stagingPath := "staging/cr_1" }

/-- Concrete blocking summary (`counts = {error: 3}`) used by the C5 witness. -/
def vsBlockedExample : CRValidationSummary :=
  { state := "FAILED", counts := { error := 3 } }

/-- C5 witness: a draft CR handed a summary with three errors is rejected,
stays DRAFT, and no event is appended. -/
theorem submit_blocked_on_errors_witness :
    crBlockedExample.status = .DRAFT ∧
    ((applySummary crBlockedExample (some vsBlockedExample)).errorsCount > 0 ∨
      (applySummary crBlockedExample (some vsBlockedExample)).fatalErrors > 0 ∨
      crBlockedExample.title = "") ∧
    ((submitForReview crBlockedExample (some vsBlockedExample) [] 7).success = false ∧
     (submitForReview crBlockedExample (some vsBlockedExample) [] 7).cr.status = .DRAFT ∧
     (submitForReview crBlockedExample (some vsBlockedExample) [] 7).events = []) :=
  ⟨rfl, by decide,
   submit_blocked_on_errors crBlockedExample (some vsBlockedExample) [] 7 rfl (by decide)⟩

/-- C9: A rejected submission still mutates the change request.  When
`submit_for_review` is handed a summary with blocking counts, the call
fails but the stored CR comes back with `validation_summary`,
`warnings_count`, `errors_count` and `fatal_errors` replaced by the
summary's values, while every other field — status and both timestamps
included — is exactly as before. -/
theorem submit_failure_frame (cr : ChangeRequest) (v : CRValidationSummary)
    (events : List CREvent) (now : Nat)
    (hblock : v.counts.error > 0 ∨ v.counts.fatal > 0) :
    (submitForReview cr (some v) events now).success = false ∧
    (submitForReview cr (some v) events now).cr =
      { cr with
        validationSummary := some v
        warningsCount := v.counts.warning
        errorsCount := v.counts.error
        fatalErrors := v.counts.fatal } ∧
    (submitForReview cr (some v) events now).events = events := by
  have hgate : (validateSubmission
      { cr with
        validationSummary := some v
        warningsCount := v.counts.warning
        errorsCount := v.counts.error
        fatalErrors := v.counts.fatal }).1 = false := by
    refine validateSubmission_blocked _ ?_
    rcases hblock with he | hf
    · exact .inl (by simpa using he)
    · exact .inr (.inl (by simpa using hf))
  unfold submitForReview
  simp [applySummary, hgate]

/-- Concrete CR used by the C9 witness. -/
def crFrameExample : ChangeRequest :=
  { id := "cr_9", title := "t", status := .DRAFT,
    stagingPath := "staging/cr_9", updatedAt := 3 }

/-- Concrete summary (`{error: 2, warning: 1}`) used by the C9 witness. -/
def vsFrameExample : CRValidationSummary :=
  { state := "FAILED", counts := { error := 2, warning := 1 } }

/-- C9 witness: the failure-frame law at a concrete CR and summary. -/
theorem submit_failure_frame_witness :
    (vsFrameExample.counts.error > 0 ∨ vsFrameExample.counts.fatal > 0) ∧
    ((submitForReview crFrameExample (some vsFrameExample) [] 11).success = false ∧
     (submitForReview crFrameExample (some vsFrameExample) [] 11).cr =
       { crFrameExample with
         validationSummary := some vsFrameExample
         warningsCount := vsFrameExample.counts.warning
         errorsCount := vsFrameExample.counts.error
         fatalErrors := vsFrameExample.counts.fatal } ∧
     (submitForReview crFrameExample (some vsFrameExample) [] 11).events = []) :=
  ⟨by decide,
   submit_failure_frame crFrameExample vsFrameExample [] 11 (by decide)⟩

end Oreo

namespace Oreo

/-! ## Theorems for claim C2 -/

/-- Concrete approved CR used to exhibit the merge-failure behaviour. -/
def crApprovedExample : ChangeRequest :=
  { id := "cr_2", title := "batch", status := .APPROVED,
    stagingPath := "staging/cr_2", approvedAt := some 4, updatedAt := 4 }

/-- C2 counterexample: an approved CR whose Delta merge raises is NOT moved
to PENDING_REVIEW and no error event is emitted — `merge_change_request`
returns failure with the CR still APPROVED and the event log untouched,
refuting the claimed `APPROVED → PENDING_REVIEW` transition and error
event. -/
theorem merge_failure_keeps_approved_counterexample :
    (mergeChangeRequest crApprovedExample false (.error "delta merge failed") [] 9).success
      = false ∧
    (mergeChangeRequest crApprovedExample false (.error "delta merge failed") [] 9).cr.status
      = .APPROVED ∧
    (mergeChangeRequest crApprovedExample false (.error "delta merge failed") [] 9).cr.status
      ≠ .PENDING_REVIEW ∧
    (mergeChangeRequest crApprovedExample false (.error "delta merge failed") [] 9).events
      = [] := by
  decide

/-- C2 (amended): when the merge pipeline fails at the merge-execution step,
`merge_change_request` reports failure with the CR record and the event log
completely unchanged (so an approved CR stays APPROVED and no event of any
kind is emitted); `full_merge` skips its cleanup step so the staging table
at the CR's staging path is preserved; and the merge never leaves a
half-applied state on main: the atomic overwrite commit leaves `main`
either at its previous content or at the complete merged table, and on a
failed commit it is exactly the previous content. -/
theorem merge_failure_state_preserved (cr : ChangeRequest) (force : Bool)
    (e : String) (events : List CREvent) (now : Nat)
    (skip : Bool) (detect : Bool × List Row)
    (keys : List Nat) (mainTbl staging : List Row) (commitOk : Bool) :
    (mergeChangeRequest cr force (.error e) events now).success = false ∧
    (mergeChangeRequest cr force (.error e) events now).cr = cr ∧
    (mergeChangeRequest cr force (.error e) events now).events = events ∧
    (fullMerge skip detect (.error e) true).ok = false ∧
    (fullMerge skip detect (.error e) true).cleanup = false ∧
    (fullMerge skip detect (.error e) true).stagingExists = true ∧
    ((executeMerge keys mainTbl staging commitOk).2 = mainTbl ∨
      (executeMerge keys mainTbl staging commitOk).2 =
        mergeUpsert keys mainTbl staging) ∧
    (executeMerge keys mainTbl staging false).2 = mainTbl := by
  refine ⟨?_, ?_, ?_, ?_, ?_, ?_, ?_, ?_⟩ <;>
    first
      | (unfold mergeChangeRequest
         rcases hg : (validateMerge cr).1 <;> rcases hf : force <;> simp [hg, hf])
      | (unfold fullMerge
         rcases hc : (!skip && detect.1) <;> simp [hc])
      | (unfold executeMerge
         cases commitOk <;> simp)

end Oreo

namespace Oreo

/-! ## Live edit sessions (`live_edit_models.py`, `live_edit_service.py`) -/

/-- `CellEdit` record (`live_edit_models.py:89-112`), restricted to the
fields the overlay and the rollups read; cell values are idealised as
strings (`str()` of a string value is the identity). -/
structure CellEdit where
  editId : String
  rowId : String
  column : String
  oldValue : Option String := none
  newValue : String
  isValid : Bool := true
deriving DecidableEq, Repr

/-- One iteration of the `get_grid_data` edit-map loop
(`live_edit_service.py:395-402`): `edit_map[edit.row_id][edit.column] =
edit.new_value`, overwriting any earlier entry for the same cell. -/
def editMapStep (acc : String → String → Option String) (e : CellEdit) :
    String → String → Option String :=
  fun r c => if r = e.rowId && c = e.column then some e.newValue else acc r c

/-- The edit map `get_grid_data` builds by folding the loop over the
session's edit list in order. -/
def editMap (edits : List CellEdit) : String → String → Option String :=
  edits.foldl editMapStep fun _ _ => none

/-- `row_id = str(base_row.get("id", base_row.get("row_id", "")))`
(`live_edit_service.py:408`). -/
def rowIdOf (b : String → Option String) : String :=
  match b "id" with
  | some v => v
  | none => (b "row_id").getD ""

/-- The cells of one returned grid row: `cells = dict(base_row)` then
`cells.update(edit_map[row_id])` when the row has edits
(`live_edit_service.py:407-413`). -/
def gridCells (edits : List CellEdit) (b : String → Option String) :
    String → Option String :=
  fun c =>
    match editMap edits (rowIdOf b) c with
    | some v => some v
    | none => b c

/-- The `edited` flag of a returned grid row: membership of the row id in
`edited_row_ids`, the set of row ids of all session edits
(`live_edit_service.py:402,418`). -/
def gridEdited (edits : List CellEdit) (b : String → Option String) : Bool :=
  edits.any fun e => e.rowId = rowIdOf b

/-- The specification's effective value: the LAST edit of the session for a
given `(row_id, column)` cell, if any. -/
def lastEditFor (edits : List CellEdit) (r c : String) : Option CellEdit :=
  (edits.filter fun e => r = e.rowId && c = e.column).getLast?

end Oreo

namespace Oreo

/-! ## Theorems for claim C6 -/

/-- The fold that builds the edit map computes last-write-per-cell, for any
initial accumulator. -/
theorem editMap_foldl_lastEdit (edits : List CellEdit)
    (acc : String → String → Option String) (r c : String) :
    edits.foldl editMapStep acc r c =
      (match lastEditFor edits r c with
       | some e => some e.newValue
       | none => acc r c) := by
  induction edits using List.reverseRecOn generalizing acc with
  | nil => rfl
  | append_singleton l e ih =>
    rw [List.foldl_append, List.foldl_cons, List.foldl_nil]
    by_cases hp : (r = e.rowId && c = e.column) = true
    · have h1 : editMapStep (List.foldl editMapStep acc l) e r c = some e.newValue := by
        unfold editMapStep
        rw [if_pos hp]
      have h2 : lastEditFor (l ++ [e]) r c = some e := by
        unfold lastEditFor
        simp [List.filter_append, hp]
      rw [h1, h2]
    · have h1 : editMapStep (List.foldl editMapStep acc l) e r c =
          List.foldl editMapStep acc l r c := by
        unfold editMapStep
        rw [if_neg hp]
      have h2 : lastEditFor (l ++ [e]) r c = lastEditFor l r c := by
        have hq : ¬ (r = e.rowId ∧ c = e.column) := fun h => hp (by simp [h.1, h.2])
        unfold lastEditFor
        simp [List.filter_append, hq]
      rw [h1, h2, ih]

/-- C6: Live-edit overlay law.  For every session edit list, base row and
column, `get_grid_data` returns the `new_value` of the last session edit
for that `(row, column)` cell when one exists and the base value otherwise,
and the returned row's `edited` flag is true exactly when the session has
an edit for that row. -/
theorem live_edit_overlay_law (edits : List CellEdit)
    (b : String → Option String) (c : String) :
    gridCells edits b c =
      (match lastEditFor edits (rowIdOf b) c with
       | some e => some e.newValue
       | none => b c) ∧
    (gridEdited edits b = true ↔ ∃ e ∈ edits, e.rowId = rowIdOf b) := by
  constructor
  · unfold gridCells editMap
    rw [editMap_foldl_lastEdit]
    cases lastEditFor edits (rowIdOf b) c <;> rfl
  · unfold gridEdited
    simp [List.any_eq_true]

end Oreo

namespace Oreo

/-! ## Conflict detection (`merge_executor.py:109-184`) -/

/-- `MergeExecutor.detect_conflicts(main, staging, keys, version_before,
current_version)`.

The two `delta_scan` reads are passed in as `Except` values (`.error` = the
read raised; the whole `try` block is caught and mapped to `(False, [])`).
When both versions are supplied and equal the function returns early; when
the staging frame is empty it returns early; the key-overlap computation
runs ONLY under `if delta_version_before is not None`, so with
`delta_version_before = None` the accumulated `conflicts` list is still
empty and `(False, [])` is returned. -/
def detectConflicts (versionBefore currentVersion : Option Int)
    (stagingQ mainQ : Except Unit (List Row)) (keys : List Nat) :
    Bool × List Row :=
  let go : Bool × List Row :=
    match stagingQ with
    | .error _ => (false, [])
    | .ok stagingDf =>
      if stagingDf.isEmpty then (false, [])
      else
        match versionBefore with
        | none => (false, [])
        | some _ =>
          match mainQ with
          | .error _ => (false, [])
          | .ok mainDf =>
            let conflicts :=
              mainDf.filter fun m => stagingDf.any fun s => keysMatch keys m s
            (!conflicts.isEmpty, conflicts)
  match versionBefore, currentVersion with
  | some a, some b => if a = b then (false, []) else go
  | _, _ => go

end Oreo

namespace Oreo

/-! ## Theorems for claim C8 -/

/-- C8: Conflict detection passes vacuously without version information.
Even when a staging key value overlaps a row present in the current main
table, `detect_conflicts` returns `(no conflicts, [])` whenever the CR's
`delta_version_before` is `None`; and whenever the staging read or the main
read raises, it also returns `(no conflicts, [])`, so the subsequent merge
proceeds without any conflict check. -/
theorem detect_conflicts_vacuous (currentVersion : Option Int)
    (stagingDf mainDf : List Row) (keys : List Nat)
    (hoverlap : ∃ s ∈ stagingDf, ∃ m ∈ mainDf, keysMatch keys m s = true)
    (vb cur : Option Int) (mq : Except Unit (List Row)) :
    detectConflicts none currentVersion (.ok stagingDf) (.ok mainDf) keys
      = (false, []) ∧
    detectConflicts vb cur (.error ()) mq keys = (false, []) ∧
    detectConflicts (some 0) (some 1) (.ok stagingDf) (.error ()) keys
      = (false, []) := by
  obtain ⟨s, hs, -⟩ := hoverlap
  have hne : stagingDf.isEmpty = false := by
    cases stagingDf with
    | nil => cases hs
    | cons a l => rfl
  refine ⟨?_, ?_, ?_⟩
  · cases currentVersion <;> simp [detectConflicts, hne]
  · cases vb with
    | none => cases cur <;> simp [detectConflicts]
    | some a =>
      cases cur with
      | none => simp [detectConflicts]
      | some b =>
        by_cases hab : a = b <;> simp [detectConflicts, hab]
  · simp [detectConflicts, hne]

/-- C8 witness: staging row with key 7 overlapping main's key-7 row, yet no
conflict is reported when `delta_version_before` is `None` or a read
fails. -/
theorem detect_conflicts_vacuous_witness :
    (∃ s ∈ [[some 7, some 1]], ∃ m ∈ [[some 7, some 0]],
        keysMatch [0] m s = true) ∧
    (detectConflicts none (some 5) (.ok [[some 7, some 1]])
        (.ok [[some 7, some 0]]) [0] = (false, []) ∧
     detectConflicts (some 4) (some 5) (.error ()) (.ok [[some 7, some 0]]) [0]
        = (false, []) ∧
     detectConflicts (some 0) (some 1) (.ok [[some 7, some 1]]) (.error ()) [0]
        = (false, [])) :=
  ⟨⟨[some 7, some 1], by decide⟩,
   detect_conflicts_vacuous (some 5) [[some 7, some 1]] [[some 7, some 0]] [0]
     ⟨[some 7, some 1], by decide⟩ (some 4) (some 5) (.ok [[some 7, some 0]])⟩

end Oreo

namespace Oreo

/-! ## Cell validation result (`validation_service.py:155-230`) and
`save_cell_edit` (`live_edit_service.py:213-311`) -/

/-- `ValidationSeverity` enum. -/
inductive Severity where
  | INFO
  | WARNING
  | ERROR
  | FATAL
deriving DecidableEq, Repr

/-- `CellValidationResult` (`validation_models.py:101-107`). -/
structure CellValidationResult where
  valid : Bool
  severity : Severity
  messages : List String
deriving DecidableEq, Repr

/-- The highest-severity loop of `validate_cell`
(`validation_service.py:202-210`): FATAL short-circuits with `break`,
ERROR overwrites, WARNING only upgrades from INFO. -/
def maxSeverityLoop (acc : Severity) : List Severity → Severity
  | [] => acc
  | s :: rest =>
    if s = .FATAL then .FATAL
    else if s = .ERROR then maxSeverityLoop .ERROR rest
    else if s = .WARNING ∧ acc = .INFO then maxSeverityLoop .WARNING rest
    else maxSeverityLoop acc rest

/-- `ValidationService.validate_cell` on a given message list (the
expectation engine producing the messages is the abstract validator of the
spec): no messages means valid; otherwise `valid = max_severity not in
[ERROR, FATAL]`. -/
def validateCellFromMessages (messages : List (Severity × String)) :
    CellValidationResult :=
  if messages.isEmpty then
    { valid := true, severity := .INFO, messages := [] }
  else
    let maxSev := maxSeverityLoop .INFO (messages.map Prod.fst)
    { valid := !(maxSev = .ERROR || maxSev = .FATAL)
      severity := maxSev
      messages := messages.map Prod.snd }

/-- `SessionStatus` enum. -/
inductive SessionStatus where
  | ACTIVE
  | PREVIEW
  | SUBMITTED
  | ABORTED
  | EXPIRED
deriving DecidableEq, Repr

/-- `LiveEditSession`, restricted to the fields `save_cell_edit` reads and
writes. -/
structure LiveEditSession where
  sessionId : String
  status : SessionStatus := .ACTIVE
  expiresAt : Option Nat := none
  changeRequestId : Option String := none
  editableColumns : List String := []
  editCount : Nat := 0
  cellsChanged : Nat := 0
  rowsAffected : Nat := 0
  updatedAt : Nat := 0
deriving DecidableEq, Repr

/-- `LiveEditSession.is_expired()`. -/
def LiveEditSession.isExpired (s : LiveEditSession) (now : Nat) : Bool :=
  match s.expiresAt with
  | some t => now > t
  | none => false

/-- `LiveEditSession.can_edit()`: ACTIVE, not expired, and no attached CR. -/
def LiveEditSession.canEdit (s : LiveEditSession) (now : Nat) : Bool :=
  s.status = .ACTIVE && !(s.isExpired now) && s.changeRequestId = none

/-- `SessionStatistics.calculate_statistics`: `cells_changed` is the number
of distinct `f"{row_id}:{column}"` strings, `rows_affected` the number of
distinct row ids. -/
def cellsChangedOf (edits : List CellEdit) : Nat :=
  ((edits.map fun e => e.rowId ++ ":" ++ e.column).dedup).length

/-- Number of distinct row ids among the edits. -/
def rowsAffectedOf (edits : List CellEdit) : Nat :=
  ((edits.map fun e => e.rowId).dedup).length

/-- A cell edit request (`CellEditRequest`). -/
structure CellEditRequest where
  rowId : String
  column : String
  newValue : String
deriving DecidableEq, Repr

/-- `EditResponse` restricted to the fields the claim mentions. -/
structure EditResponse where
  status : String
  editId : Option String
deriving DecidableEq, Repr

/-- Combined post-state of a `save_cell_edit` call: response, session edit
log and session record. -/
structure SaveEditOutcome where
  response : EditResponse
  edits : List CellEdit
  session : LiveEditSession
deriving DecidableEq, Repr

/-- `LiveEditService.save_cell_edit(session_id, request, user)`
(`live_edit_service.py:213-311`).  The validation result of the cell is
computed by `validate_cell`; the old value is the code's `None`
placeholder.  Whatever the validation outcome, the edit record is appended
to the session's edit list and the session rollups are recomputed; only the
response's `status` reflects validity. -/
def saveCellEdit (s : LiveEditSession) (now : Nat) (edits : List CellEdit)
    (req : CellEditRequest) (messages : List (Severity × String))
    (newEditId : String) : SaveEditOutcome :=
  if !(s.canEdit now) then
    { response := { status := "error", editId := none }, edits := edits, session := s }
  else if !(s.editableColumns.contains req.column) then
    { response := { status := "error", editId := none }, edits := edits, session := s }
  else
    let valRes := validateCellFromMessages messages
    let edit : CellEdit :=
      { editId := newEditId, rowId := req.rowId, column := req.column,
        oldValue := none, newValue := req.newValue, isValid := valRes.valid }
    let edits' := edits ++ [edit]
    { response :=
        { status := if valRes.valid then "ok" else "error"
          editId := some newEditId }
      edits := edits'
      session :=
        { s with
          editCount := edits'.length
          cellsChanged := cellsChangedOf edits'
          rowsAffected := rowsAffectedOf edits'
          updatedAt := now } }

end Oreo

namespace Oreo

/-! ## Theorems for claim C10 -/

/-- The severity loop reports ERROR or FATAL whenever some message carries
one of those severities (or the accumulator already does). -/
theorem maxSeverityLoop_blocking (sevs : List Severity) (acc : Severity)
    (h : (∃ s ∈ sevs, s = .ERROR ∨ s = .FATAL) ∨ acc = .ERROR) :
    maxSeverityLoop acc sevs = .ERROR ∨ maxSeverityLoop acc sevs = .FATAL := by
  induction sevs generalizing acc with
  | nil =>
    rcases h with ⟨s, hs, -⟩ | hacc
    · cases hs
    · exact .inl hacc
  | cons s rest ih =>
    unfold maxSeverityLoop
    by_cases hF : s = Severity.FATAL
    · simp [hF]
    · by_cases hE : s = Severity.ERROR
      · simp only [hF, if_false, hE, if_true]
        exact ih _ (.inr rfl)
      · have h' : (∃ t ∈ rest, t = Severity.ERROR ∨ t = Severity.FATAL) ∨
            acc = Severity.ERROR := by
          rcases h with ⟨t, ht, hor⟩ | hacc
          · rcases List.mem_cons.mp ht with rfl | htm
            · rcases hor with rfl | rfl
              · exact absurd rfl hE
              · exact absurd rfl hF
            · exact .inl ⟨t, htm, hor⟩
          · exact .inr hacc
        by_cases hW : s = Severity.WARNING ∧ acc = Severity.INFO
        · have h'' : (∃ t ∈ rest, t = Severity.ERROR ∨ t = Severity.FATAL) ∨
              (Severity.WARNING : Severity) = Severity.ERROR := by
            rcases h' with hx | hacc
            · exact .inl hx
            · rw [hW.2] at hacc
              simp at hacc
          simp only [hF, if_false, hE, hW, if_true]
          exact ih _ h''
        · simp only [hF, if_false, hE, hW, if_false]
          exact ih _ h'

/-- C10: Invalid edits are retained.  For an editable session and an
editable column, when the cell's validation messages contain an ERROR or
FATAL message, `save_cell_edit` still appends the edit record (flagged
invalid) to the session's edit log, recomputes the session rollups
(`edit_count`, `cells_changed`, `rows_affected`), and returns an edit id
with status "error"; the appended edit is the last edit for its cell and
so participates in subsequent grid overlays. -/
theorem invalid_edit_retained (s : LiveEditSession) (now : Nat)
    (edits : List CellEdit) (req : CellEditRequest)
    (messages : List (Severity × String)) (newEditId : String)
    (hedit : s.canEdit now = true)
    (hcol : s.editableColumns.contains req.column = true)
    (hblock : ∃ m ∈ messages, m.1 = Severity.ERROR ∨ m.1 = Severity.FATAL) :
    (saveCellEdit s now edits req messages newEditId).response.status = "error" ∧
    (saveCellEdit s now edits req messages newEditId).response.editId = some newEditId ∧
    (saveCellEdit s now edits req messages newEditId).edits = edits ++
      [{ editId := newEditId, rowId := req.rowId, column := req.column,
         oldValue := none, newValue := req.newValue, isValid := false }] ∧
    (saveCellEdit s now edits req messages newEditId).session.editCount
      = edits.length + 1 ∧
    (saveCellEdit s now edits req messages newEditId).session.cellsChanged
      = cellsChangedOf ((saveCellEdit s now edits req messages newEditId).edits) ∧
    (saveCellEdit s now edits req messages newEditId).session.rowsAffected
      = rowsAffectedOf ((saveCellEdit s now edits req messages newEditId).edits) ∧
    lastEditFor ((saveCellEdit s now edits req messages newEditId).edits)
        req.rowId req.column =
      some { editId := newEditId, rowId := req.rowId, column := req.column,
             oldValue := none, newValue := req.newValue, isValid := false } := by
  have hne : messages.isEmpty = false := by
    obtain ⟨m, hm, -⟩ := hblock
    cases messages with
    | nil => cases hm
    | cons a l => rfl
  have hsev : maxSeverityLoop .INFO (messages.map Prod.fst) = .ERROR ∨
      maxSeverityLoop .INFO (messages.map Prod.fst) = .FATAL := by
    refine maxSeverityLoop_blocking _ _ (.inl ?_)
    obtain ⟨m, hm, hor⟩ := hblock
    exact ⟨m.1, List.mem_map.mpr ⟨m, hm, rfl⟩, hor⟩
  have hvalid : (validateCellFromMessages messages).valid = false := by
    unfold validateCellFromMessages
    rw [hne]
    rcases hsev with h | h <;> simp [h]
  have hmem : req.column ∈ s.editableColumns := by
    simpa using hcol
  simp [saveCellEdit, hedit, hmem, hvalid, lastEditFor, List.filter_append,
    List.getLast?_concat, List.reverse_append]

end Oreo

namespace Oreo

/-- Concrete editable session used by the C10 witness. -/
def sessionC10 : LiveEditSession :=
  { sessionId := "sess_1", status := .ACTIVE, expiresAt := some 100,
    changeRequestId := none, editableColumns := ["amount", "status"] }

/-- Concrete edit request used by the C10 witness. -/
def requestC10 : CellEditRequest :=
  { rowId := "1", column := "amount", newValue := "-5" }

/-- C10 witness: an ERROR-severity edit on an editable column of an active
session is appended, rolled up, and answered with status "error" and an
edit id. -/
theorem invalid_edit_retained_witness :
    sessionC10.canEdit 5 = true ∧
    sessionC10.editableColumns.contains requestC10.column = true ∧
    (∃ m ∈ [(Severity.ERROR, "amount must be at least 0")],
      m.1 = Severity.ERROR ∨ m.1 = Severity.FATAL) ∧
    ((saveCellEdit sessionC10 5 [] requestC10
        [(Severity.ERROR, "amount must be at least 0")] "edit_1").response.status
        = "error" ∧
     (saveCellEdit sessionC10 5 [] requestC10
        [(Severity.ERROR, "amount must be at least 0")] "edit_1").response.editId
        = some "edit_1" ∧
     (saveCellEdit sessionC10 5 [] requestC10
        [(Severity.ERROR, "amount must be at least 0")] "edit_1").edits = [] ++
       [{ editId := "edit_1", rowId := requestC10.rowId, column := requestC10.column,
          oldValue := none, newValue := requestC10.newValue, isValid := false }] ∧
     (saveCellEdit sessionC10 5 [] requestC10
        [(Severity.ERROR, "amount must be at least 0")] "edit_1").session.editCount
        = List.length ([] : List CellEdit) + 1 ∧
     (saveCellEdit sessionC10 5 [] requestC10
        [(Severity.ERROR, "amount must be at least 0")] "edit_1").session.cellsChanged
        = cellsChangedOf ((saveCellEdit sessionC10 5 [] requestC10
            [(Severity.ERROR, "amount must be at least 0")] "edit_1").edits) ∧
     (saveCellEdit sessionC10 5 [] requestC10
        [(Severity.ERROR, "amount must be at least 0")] "edit_1").session.rowsAffected
        = rowsAffectedOf ((saveCellEdit sessionC10 5 [] requestC10
            [(Severity.ERROR, "amount must be at least 0")] "edit_1").edits) ∧
     lastEditFor ((saveCellEdit sessionC10 5 [] requestC10
          [(Severity.ERROR, "amount must be at least 0")] "edit_1").edits)
        requestC10.rowId requestC10.column =
       some { editId := "edit_1", rowId := requestC10.rowId, column := requestC10.column,
              oldValue := none, newValue := requestC10.newValue, isValid := false }) :=
  ⟨by decide, by decide, by decide,
   invalid_edit_retained sessionC10 5 [] requestC10
     [(Severity.ERROR, "amount must be at least 0")] "edit_1"
     (by decide) (by decide) (by decide)⟩

end Oreo

namespace Oreo

/-! ## Between/range rule (`business_rules_service.py:405-438`) -/

/-- The bound-carrying fields of a `between` / `range` rule dict. -/
structure BetweenRule where
  min : Option Int := none
  max : Option Int := none
  value : Option Int := none
  value2 : Option Int := none
deriving DecidableEq, Repr

/-- Python `a or b` on optional numerics: `None` AND the number `0` are
falsy, so `rule.get("min") or rule.get("value")` discards an explicit
bound of `0`. -/
def pyOrNum (a b : Option Int) : Option Int :=
  match a with
  | some x => if x = 0 then b else some x
  | none => b

/-- A reported bound violation (`CellValidationError` restricted to the
message kind: "must be at least min" / "must be at most max"). -/
inductive BetweenViolation where
  | atLeast (bound : Int)
  | atMost (bound : Int)
deriving DecidableEq, Repr

/-- `BusinessRulesService._validate_single_value` for
`rule_type in ("between", "range")` on a non-null numeric value:
`min_val = rule.get("min") or rule.get("value")`,
`max_val = rule.get("max") or rule.get("value2")`; report when
`min_val is not None and v < min_val`, then when
`max_val is not None and v > max_val`, else no violation. -/
def validateBetween (rule : BetweenRule) (v : Int) : Option BetweenViolation :=
  let minVal := pyOrNum rule.min rule.value
  let maxVal := pyOrNum rule.max rule.value2
  match minVal with
  | some m =>
    if v < m then some (.atLeast m)
    else
      match maxVal with
      | some bigM => if v > bigM then some (.atMost bigM) else none
      | none => none
  | none =>
    match maxVal with
    | some bigM => if v > bigM then some (.atMost bigM) else none
    | none => none

end Oreo

namespace Oreo

/-! ## Theorems for claim C7 -/

/-- C7 failing input: for the rule `{type: "between", min: 0, max: 10}` the
value `-5` violates the claimed inclusive bound (`-5 < 0`), yet the code
reports NO violation: `min_val = rule.get("min") or rule.get("value")`
evaluates the numeric `0` as falsy, drops the lower bound, and the check is
skipped.  (Values `0..10` and the upper bound still behave as claimed.) -/
theorem between_rule_min_zero_ignored :
    validateBetween { min := some 0, max := some 10 } (-5) = none ∧
    ((-5 : Int) < 0 ∨ (-5 : Int) > 10) ∧
    validateBetween { min := some 1, max := some 10 } 0 = some (.atLeast 1) ∧
    validateBetween { min := some 0, max := some 10 } 11 = some (.atMost 10) := by
  decide

end Oreo
